import Mathlib

set_option autoImplicit false

/-!
Shallow embedding of the WebSinu grade-notification agent (`src/main.py`).

The embedding covers the three core pieces of the program:
the diff engine `compare_grades`, the page extractor inside `get_grades`,
and the login handshake `login_websinu`.  Pure Python functions become Lean
functions; the two HTTP clients are modelled by threading an explicit
environment (the responses the server would give) through the function and
by recording the POST requests the code issues as a trace.
-/

/- ### Python string primitives -/

/-- The set of characters Python's `str.strip()` / `str.isspace()` treat as
whitespace (ASCII control whitespace, the field separators, `\x85`, `\xa0`,
and the Unicode space separators). -/
def pyIsSpace (c : Char) : Bool :=
  (9 ≤ c.toNat && c.toNat ≤ 13) || (28 ≤ c.toNat && c.toNat ≤ 32) ||
  c.toNat == 0x85 || c.toNat == 0xa0 || c.toNat == 0x1680 ||
  (0x2000 ≤ c.toNat && c.toNat ≤ 0x200a) || c.toNat == 0x2028 || c.toNat == 0x2029 ||
  c.toNat == 0x202f || c.toNat == 0x205f || c.toNat == 0x3000

/-- `str.strip()` on a character list: drop Python whitespace from both ends. -/
def pyStripList (l : List Char) : List Char :=
  ((l.dropWhile pyIsSpace).reverse.dropWhile pyIsSpace).reverse

/-- Python `s.strip()`. -/
def pyStrip (s : String) : String := ⟨pyStripList s.data⟩

/-- One character of `s.replace('\xa0', ' ')`. -/
def replChar (c : Char) : Char := if c = '\u00A0' then ' ' else c

/-- Python `s.replace('\xa0', ' ')` (a single-character pattern, so a map). -/
def replNbsp (s : String) : String := ⟨s.data.map replChar⟩

/-- The subject post-processing of `get_grades` (line 217):
`.replace('\xa0', ' ').replace('\u00A0', ' ').strip()` applied to the cell text. -/
def subjectClean (s : String) : String := pyStrip (replNbsp (replNbsp s))

/-- Python `needle in hay` for strings. -/
def strContains (hay needle : String) : Bool := decide (List.IsInfix needle.data hay.data)

/- ### Record model and diff engine (`compare_grades`, lines 272-300) -/

/-- One grade dictionary as built by `get_grades` and stored in the snapshot. -/
structure Grade where
  year : String
  semester : String
  subject : String
  type : String
  date : String
  grade : String
deriving DecidableEq, Repr

/-- One entry of the `changed_grade_entries` list (lines 291-298). -/
structure ChangeEntry where
  old_grade : String
  new_grade : String
  subject : String
  year : String
  semester : String
  date : String
deriving DecidableEq, Repr

/-- The identity key `(grade['subject'], grade['year'], grade['semester'])`. -/
abbrev GKey := String × String × String

/-- Line 282/286: the key tuple of a record. -/
def gradeKey (g : Grade) : GKey := (g.subject, g.year, g.semester)

/-- Python dict assignment `d[k] = v`: replace the binding if the key is
present, otherwise append it. -/
def dictInsert : List (GKey × String) → GKey → String → List (GKey × String)
  | [], k, v => [(k, v)]
  | p :: rest, k, v => if p.1 = k then (k, v) :: rest else p :: dictInsert rest k v

/-- Python dict lookup: `d[k]`, with `none` when `k not in d`. -/
def dictGet? : List (GKey × String) → GKey → Option String
  | [], _ => none
  | p :: rest, k => if p.1 = k then some p.2 else dictGet? rest k

/-- The `old_grades_map` construction loop of `compare_grades` (lines 280-283). -/
def buildOldMap (old_grades : List Grade) : List (GKey × String) :=
  old_grades.foldl (fun m g => dictInsert m (gradeKey g) g.grade) []

/-- One iteration of the classification loop of `compare_grades` (lines 285-298). -/
def diffStep (m : List (GKey × String)) (acc : List Grade × List ChangeEntry)
    (g : Grade) : List Grade × List ChangeEntry :=
  match dictGet? m (gradeKey g) with
  | none => (acc.1 ++ [g], acc.2)
  | some ov =>
    if ov ≠ g.grade then
      (acc.1, acc.2 ++ [{ old_grade := ov, new_grade := g.grade, subject := g.subject,
                          year := g.year, semester := g.semester, date := g.date }])
    else acc

/-- `compare_grades(old_grades, new_grades)` from `src/main.py`. -/
def compare_grades (old_grades new_grades : List Grade) :
    List Grade × List ChangeEntry :=
  new_grades.foldl (diffStep (buildOldMap old_grades)) ([], [])

/- ### Spec-side characterisation of the diff engine -/

/-- Spec wording: a current record is new exactly when its key is absent from
the previous-grade mapping. -/
def specIsNew (m : List (GKey × String)) (g : Grade) : Bool :=
  (dictGet? m (gradeKey g)).isNone

/-- Spec wording: the change entry a current record emits, if any — present
exactly when the key is found and the stored grade differs from the current
grade under exact string comparison. -/
def specChange? (m : List (GKey × String)) (g : Grade) : Option ChangeEntry :=
  match dictGet? m (gradeKey g) with
  | none => none
  | some ov =>
    if ov = g.grade then none
    else some { old_grade := ov, new_grade := g.grade, subject := g.subject,
                year := g.year, semester := g.semester, date := g.date }

/- ### Concrete records used in counterexamples and witnesses -/

/-- Algebra, year 1, semester 1, grade 7. -/
def gAlg7 : Grade :=
  { year := "1", semester := "1", subject := "Algebra", type := "Examen",
    date := "2024-01-05", grade := "7" }

/-- Same identity key as `gAlg7`, grade 8. -/
def gAlg8 : Grade :=
  { year := "1", semester := "1", subject := "Algebra", type := "Examen",
    date := "2024-01-20", grade := "8" }

/-- Same identity key as `gAlg7`, grade 9, later date. -/
def gAlg9 : Grade :=
  { year := "1", semester := "1", subject := "Algebra", type := "Examen",
    date := "2024-02-01", grade := "9" }

/-- A record with a different identity key. -/
def gDb8 : Grade :=
  { year := "2", semester := "1", subject := "Databases", type := "Examen",
    date := "2024-01-15", grade := "8" }

/- ### HTML model and the row scan of `get_grades` (lines 205-235) -/

/-- A parsed HTML node: a text node, or an element with tag name, class list
(the `class` attribute, `[]` when absent) and children in document order. -/
inductive Node where
  | text : String → Node
  | elem : String → List String → List Node → Node
deriving Repr

mutual
/-- All text-node strings at or below a node, in document order. -/
def nodeTexts : Node → List String
  | .text s => [s]
  | .elem _ _ ch => listTexts ch
/-- Text-node strings below a list of siblings. -/
def listTexts : List Node → List String
  | [] => []
  | n :: ns => nodeTexts n ++ listTexts ns
end

/-- BeautifulSoup `get_text(strip=True)`: each text piece stripped, then
concatenated. -/
def getTextStrip (n : Node) : String := String.join ((nodeTexts n).map pyStrip)

/-- Is this node a `td` element? -/
def isTd : Node → Bool
  | .elem t _ _ => t == "td"
  | .text _ => false

/-- `tr.find_all('td', recursive=False)` (line 210): the direct td children. -/
def directTds : Node → List Node
  | .elem _ _ ch => ch.filter isTd
  | .text _ => []

/-- Is this node a `table` element? -/
def isTable : Node → Bool
  | .elem t _ _ => t == "table"
  | .text _ => false

/-- `tr.find_parent('table')` (line 212) given the chain of ancestors of the
row, nearest first. -/
def findParentTable (anc : List Node) : Option Node := anc.find? isTable

/-- `'class' in parent_table.attrs and 'table' in parent_table['class']`
(line 213). -/
def hasMarkerClass : Node → Bool
  | .elem _ cls _ => cls.contains "table"
  | .text _ => false

/-- Is this node a `tr` element (the `soup_grades.find_all('tr')` filter)? -/
def isTr : Node → Bool
  | .elem t _ _ => t == "tr"
  | .text _ => false

/-- `tds[i].get_text(strip=True)` — only evaluated under the length-6 guard,
so the default for an out-of-range index is never reached. -/
def cellText (tds : List Node) (i : Nat) : String := getTextStrip (tds.getD i (.text ""))

/-- The record built from the six cells of a qualifying row (lines 215-229),
with the extra normalisation applied to the subject cell. -/
def mkRecord (tds : List Node) : Grade :=
  { year := cellText tds 0, semester := cellText tds 1,
    subject := subjectClean (cellText tds 2),
    type := cellText tds 3, date := cellText tds 4, grade := cellText tds 5 }

/-- The body of the row loop (lines 210-229) for one `tr`. -/
def rowEmit (anc : List Node) (n : Node) : List Grade :=
  let tds := directTds n
  if tds.length == 6 then
    match findParentTable anc with
    | some pt => if hasMarkerClass pt then [mkRecord tds] else []
    | none => []
  else []

mutual
/-- Pre-order scan mirroring `soup_grades.find_all('tr')` plus the row loop,
carrying the ancestor chain (nearest first). -/
def scanNode (anc : List Node) : Node → List Grade
  | .text _ => []
  | .elem t cls ch =>
    (if isTr (.elem t cls ch) then rowEmit anc (.elem t cls ch) else []) ++
      scanList (.elem t cls ch :: anc) ch
/-- Scan of a sibling list. -/
def scanList (anc : List Node) : List Node → List Grade
  | [] => []
  | n :: ns => scanNode anc n ++ scanList anc ns
end

/-- The grade-extraction scan of `get_grades` over a parsed document. -/
def extractRecords (doc : Node) : List Grade := scanNode [] doc

/- ### Spec-side characterisation of the row scan -/

mutual
/-- Every node of the document paired with its ancestor chain, pre-order. -/
def occsNode (anc : List Node) : Node → List (List Node × Node)
  | .text s => [(anc, .text s)]
  | .elem t cls ch => (anc, .elem t cls ch) :: occsList (.elem t cls ch :: anc) ch
/-- Occurrences below a list of siblings. -/
def occsList (anc : List Node) : List Node → List (List Node × Node)
  | [] => []
  | n :: ns => occsNode anc n ++ occsList anc ns
end

/-- Spec wording: the nearest enclosing table ancestor exists and carries the
marker class `table`. -/
def markerAncestor (anc : List Node) : Bool :=
  match findParentTable anc with
  | some pt => hasMarkerClass pt
  | none => false

/-- Spec wording: a row qualifies exactly when it is a `tr` with exactly six
direct td cells whose nearest enclosing table ancestor carries the marker
class. -/
def rowQualifies (anc : List Node) (n : Node) : Bool :=
  isTr n && (directTds n).length == 6 && markerAncestor anc

/-- The record a node occurrence contributes, if it qualifies. -/
def emitIfQualifies (p : List Node × Node) : Option Grade :=
  if rowQualifies p.1 p.2 then some (mkRecord (directTds p.2)) else none

/- ### Example documents -/

/-- A td cell holding one text node. -/
def tdCell (s : String) : Node := .elem "td" [] [.text s]

/-- A well-formed six-cell row. -/
def row6 : Node :=
  .elem "tr" [] [tdCell "1", tdCell "1", tdCell "Algebra", tdCell "Examen",
                 tdCell "2024-01-10", tdCell "9"]

/-- A five-cell row. -/
def row5 : Node :=
  .elem "tr" [] [tdCell "1", tdCell "1", tdCell "Algebra", tdCell "Examen", tdCell "9"]

/-- A seven-cell row. -/
def row7 : Node :=
  .elem "tr" [] [tdCell "1", tdCell "1", tdCell "Algebra", tdCell "Examen",
                 tdCell "2024-01-10", tdCell "9", tdCell "extra"]

/-- A table carrying the marker class. -/
def markerTable (rows : List Node) : Node := .elem "table" ["table"] rows

/-- A table without the marker class. -/
def plainTable (rows : List Node) : Node := .elem "table" ["fancy"] rows

/-- The record extracted from `row6`. -/
def rec6 : Grade :=
  { year := "1", semester := "1", subject := "Algebra", type := "Examen",
    date := "2024-01-10", grade := "9" }

/-- A six-cell row whose subject cell contains a non-breaking space. -/
def rowNb : Node :=
  .elem "tr" [] [tdCell "1", tdCell "1", tdCell "Algebra\u00A0Liniara", tdCell "Examen",
                 tdCell "2024-01-10", tdCell "9"]

/-- A marker-class table holding `rowNb`. -/
def docNb : Node := markerTable [rowNb]

/-- The record extracted from `rowNb`: subject normalised to a plain space. -/
def recNb : Grade :=
  { year := "1", semester := "1", subject := "Algebra Liniara", type := "Examen",
    date := "2024-01-10", grade := "9" }

/- ### Auth handshake (`login_websinu`, lines 49-144) and fetcher (`get_grades`, lines 146-199) -/

/-- One POST request issued by the client: target URL and form payload. -/
structure Request where
  url : String
  payload : List (String × String)
deriving DecidableEq, Repr

/-- An `<input>` tag found by BeautifulSoup; `value = none` models a missing
`value` attribute (whose subscript access raises and is swallowed by the
blanket exception handler). -/
structure InputTag where
  value : Option String
deriving Repr

/-- The form `find('form', name='frmData', action='roluri.asp')` result with
its `sid` and `hidSelfSubmit` inputs. -/
structure FrmData where
  sidInput : Option InputTag
  hssInput : Option InputTag
deriving Repr

/-- The parse of a response body: document title string (if a title tag with a
string is present) and the `frmData` form (if present). -/
structure PageInfo where
  title : Option String
  frmData : Option FrmData
deriving Repr

/-- One HTTP response: whether `raise_for_status()` passes, the body text, and
its parse. -/
structure Resp where
  ok : Bool
  text : String
  page : PageInfo
deriving Repr

/-- The environment of one `login_websinu` run: the response to the login POST
and the response to the intermediate `roluri.asp` POST (`none` models a raised
`requests` exception). -/
structure LoginEnv where
  first : Option Resp
  second : Option Resp
deriving Repr

/-- The login URL (line 58). -/
def loginUrl : String := "https://websinu.utcluj.ro/note/default.asp"

/-- The roluri URL (line 59). -/
def roluriUrl : String := "https://websinu.utcluj.ro/note/roluri.asp"

/-- The expected landing-page title (lines 104, 118). -/
def expectedTitle : String := "Note din sesiunea curenta"

/-- The login POST payload (lines 61-66). -/
def loginPayload (username password : String) : List (String × String) :=
  [("hidSelfSubmit", "default.asp"), ("username", username),
   ("password", password), ("submit", " Intra ")]

/-- `inp['value'] if inp else dflt` (lines 84, 86): `none` is the exception
path of a missing `value` attribute. -/
def inputValueOr (inp : Option InputTag) (dflt : String) : Option String :=
  match inp with
  | none => some dflt
  | some i => i.value

/-- The `(session, sid, html)` result triple; the session object is opaque. -/
abbrev LoginTriple := Option Unit × Option String × Option String

/-- Every failure return of `login_websinu`: `(None, None, None)`. -/
def failTriple : LoginTriple := (none, none, none)

/-- `login_websinu(username, password)` from `src/main.py`: the trace of POST
requests issued and the returned triple, as a function of the environment. -/
def login_websinu (username password : String) (env : LoginEnv) :
    List Request × LoginTriple :=
  let t1 : List Request := [{ url := loginUrl, payload := loginPayload username password }]
  match env.first with
  | none => (t1, failTriple)
  | some r =>
    if r.ok then
      if strContains r.text "document.frmData.submit()" && strContains r.text "roluri.asp" then
        match r.page.frmData with
        | none => (t1, failTriple)
        | some form =>
          match inputValueOr form.sidInput "" with
          | none => (t1, failTriple)
          | some isid =>
            match inputValueOr form.hssInput "roluri.asp" with
            | none => (t1, failTriple)
            | some hss =>
              if isid ≠ "" then
                let req2 : Request :=
                  { url := roluriUrl,
                    payload := [("hidSelfSubmit", hss), ("sid", isid), ("hidOperation", ""),
                                ("hidNume_Facultate", ""), ("hidNume_Specializare", "")] }
                let t2 : List Request := t1 ++ [req2]
                match env.second with
                | none => (t2, failTriple)
                | some r2 =>
                  if r2.ok then
                    if r2.page.title = some expectedTitle then
                      (t2, (some (), some isid, some r2.text))
                    else (t2, failTriple)
                  else (t2, failTriple)
              else (t1, failTriple)
      else
        if r.page.title = some expectedTitle then
          match r.page.frmData with
          | none => (t1, failTriple)
          | some form =>
            match form.sidInput with
            | none => (t1, failTriple)
            | some inp =>
              match inp.value with
              | none => (t1, failTriple)
              | some v =>
                if v ≠ "" then (t1, (some (), some v, some r.text)) else (t1, failTriple)
        else (t1, failTriple)
    else (t1, failTriple)

/- ### The `NoteSesiuneaCurenta` regex of `get_grades` (line 176) -/

/-- Second lazy capture `(.*?)'\)`: accumulate any non-newline character,
closing at the first quote that is followed by a closing parenthesis. -/
def cap2 (acc : List Char) : List Char → Option (List Char)
  | '\'' :: ')' :: _ => some acc.reverse
  | c :: rest => if c = '\n' then none else cap2 (c :: acc) rest
  | [] => none

/-- The continuation after the first capture closes: `,\s*'(.*?)'\)`. -/
def closeAttempt (acc : List Char) : List Char → Option (String × String)
  | ',' :: rest2 =>
    match rest2.dropWhile pyIsSpace with
    | '\'' :: rest3 =>
      match cap2 [] rest3 with
      | some a2 => some (⟨acc.reverse⟩, ⟨a2⟩)
      | none => none
    | _ => none
  | _ => none

/-- First lazy capture `(.*?)',\s*'(.*?)'\)`: at each quote try to close the
capture (backtracking into extending it when the rest fails), never crossing a
newline. -/
def cap1 (acc : List Char) : List Char → Option (String × String)
  | [] => none
  | c :: rest =>
    if c = '\'' then
      match closeAttempt acc rest with
      | some r => some r
      | none => cap1 (c :: acc) rest
    else if c = '\n' then none
    else cap1 (c :: acc) rest

/-- The literal head of the pattern. -/
def jsCallLit : List Char := "NoteSesiuneaCurenta('".data

/-- `re.search`: try the pattern at each successive start position. -/
def searchFrom : List Char → Option (String × String)
  | [] => none
  | c :: rest =>
    if jsCallLit.isPrefixOf (c :: rest) then
      match cap1 [] ((c :: rest).drop jsCallLit.length) with
      | some r => some r
      | none => searchFrom rest
    else searchFrom rest

/-- `re.search(r"NoteSesiuneaCurenta\('(.*?)',\s*'(.*?)'\)", js_call)` with its
two captured groups. -/
def noteArgs (s : String) : Option (String × String) := searchFrom s.data

/-- The response to the grades POST: status and parsed document. -/
structure GradesResp where
  ok : Bool
  doc : Node

/-- The environment of one `get_grades` run: the href of the first anchor
whose href starts with `javascript: NoteSesiuneaCurenta` (if any), and the
response to the grades POST (`none` models a raised `requests` exception). -/
structure GradesEnv where
  viewNotesLink : Option String
  resp : Option GradesResp

/-- `get_grades(session, initial_sid, initial_grades_page_html)` from
`src/main.py`: the trace of POST requests issued and the extracted grades. -/
def get_grades (initial_sid : String) (env : GradesEnv) : List Request × List Grade :=
  if initial_sid = "" then ([], [])
  else
    match env.viewNotesLink with
    | none => ([], [])
    | some href =>
      match noteArgs href with
      | none => ([], [])
      | some ab =>
        let req : Request :=
          { url := roluriUrl,
            payload := [("hidSelfSubmit", "roluri.asp"), ("sid", initial_sid),
                        ("hidOperation", "N"), ("hidNume_Facultate", pyStrip ab.1),
                        ("hidNume_Specializare", pyStrip ab.2)] }
        match env.resp with
        | none => ([req], [])
        | some r => if r.ok then ([req], extractRecords r.doc) else ([req], [])

/-- A first response that triggers the two-hop path with a valid intermediate
sid, followed by a final page whose title is not the expected one. -/
def twoHopMismatchEnv : LoginEnv :=
  { first := some
      { ok := true,
        text := "<script>document.frmData.submit()</script> action=roluri.asp",
        page := { title := none,
                  frmData := some { sidInput := some { value := some "SID123" },
                                    hssInput := some { value := some "roluri.asp" } } } },
    second := some
      { ok := true,
        text := "<html><head><title>Eroare</title></head></html>",
        page := { title := some "Eroare", frmData := none } } }

/-- A first response with no redirect markers and a non-matching title: the
credential-rejection branch (line 135-138). -/
def credentialRejectEnv : LoginEnv :=
  { first := some
      { ok := true,
        text := "Utilizator sau parola incorecte",
        page := { title := some "Autentificare", frmData := none } },
    second := none }

/-- A concrete landing page whose anchor carries the JavaScript call. -/
def sampleGradesEnv : GradesEnv :=
  { viewNotesLink :=
      some "javascript: NoteSesiuneaCurenta('Automatica si Calculatoare', 'Calculatoare romana')",
    resp := none }

/-- The records POST that `get_grades` issues on `sampleGradesEnv`. -/
def sampleGradesReq : Request :=
  { url := roluriUrl,
    payload := [("hidSelfSubmit", "roluri.asp"), ("sid", "SID9"), ("hidOperation", "N"),
                ("hidNume_Facultate", "Automatica si Calculatoare"),
                ("hidNume_Specializare", "Calculatoare romana")] }

/- ### Dictionary lemmas -/

theorem dictGet?_insert_self (m : List (GKey × String)) (k : GKey) (v : String) :
    dictGet? (dictInsert m k v) k = some v := by
  induction m with
  | nil => simp [dictInsert, dictGet?]
  | cons p rest ih =>
    by_cases h : p.1 = k
    · simp [dictInsert, dictGet?, h]
    · simp [dictInsert, dictGet?, h, ih]

theorem dictGet?_insert_ne (m : List (GKey × String)) (k k2 : GKey) (v : String)
    (h : k2 ≠ k) : dictGet? (dictInsert m k v) k2 = dictGet? m k2 := by
  induction m with
  | nil => simp [dictInsert, dictGet?, Ne.symm h]
  | cons p rest ih =>
    by_cases hp : p.1 = k
    · have hne : k ≠ k2 := fun he => h he.symm
      simp [dictInsert, dictGet?, hp, hne]
    · simp only [dictInsert, if_neg hp]
      by_cases hp2 : p.1 = k2
      · simp [dictGet?, hp2]
      · simp [dictGet?, hp2, ih]

/-- Looking a key up in the map built by the `old_grades_map` loop finds the
grade of the last record with that key, if any, regardless of what the
accumulator already holds for other keys. -/
theorem dictGet?_buildLoop (l : List Grade) :
    ∀ (m : List (GKey × String)) (k : GKey),
      dictGet? (l.foldl (fun m g => dictInsert m (gradeKey g) g.grade) m) k =
        match l.reverse.find? (fun g => gradeKey g == k) with
        | some g => some g.grade
        | none => dictGet? m k := by
  induction l with
  | nil => intro m k; rfl
  | cons g t ih =>
    intro m k
    rw [List.foldl_cons, ih, List.reverse_cons, List.find?_append]
    cases hf : t.reverse.find? (fun g => gradeKey g == k) with
    | some g2 => simp
    | none =>
      simp only [Option.none_or]
      by_cases hk : gradeKey g = k
      · simp [List.find?, hk, dictGet?_insert_self]
      · have : (gradeKey g == k) = false := by simp [hk]
        simp [List.find?, this, dictGet?_insert_ne m (gradeKey g) k g.grade (Ne.symm hk)]

/-- The previous-grade lookup of `compare_grades` returns the grade of the
last record in `old_grades` bearing the key. -/
theorem buildOldMap_get (old_grades : List Grade) (k : GKey) :
    dictGet? (buildOldMap old_grades) k =
      (old_grades.reverse.find? (fun g => gradeKey g == k)).map Grade.grade := by
  rw [buildOldMap, dictGet?_buildLoop]
  cases old_grades.reverse.find? (fun g => gradeKey g == k) <;> rfl

/- ### Loop characterisation of `compare_grades` -/

theorem foldl_diffStep_eq (m : List (GKey × String)) (l : List Grade) :
    ∀ acc : List Grade × List ChangeEntry,
      l.foldl (diffStep m) acc =
        (acc.1 ++ l.filter (specIsNew m), acc.2 ++ l.filterMap (specChange? m)) := by
  induction l with
  | nil => intro acc; simp
  | cons g t ih =>
    intro acc
    rw [List.foldl_cons, ih]
    cases h : dictGet? m (gradeKey g) with
    | none => simp [diffStep, specIsNew, specChange?, h, List.filter_cons]
    | some ov =>
      by_cases hg : ov = g.grade
      · simp [diffStep, specIsNew, specChange?, h, hg, List.filter_cons]
      · simp [diffStep, specIsNew, specChange?, h, hg, List.filter_cons]

/-- `compare_grades` computes exactly the filter of new records and the
filter-map of change entries over `new_grades`, in order. -/
theorem compare_grades_eq_filter (old_grades new_grades : List Grade) :
    compare_grades old_grades new_grades =
      (new_grades.filter (specIsNew (buildOldMap old_grades)),
       new_grades.filterMap (specChange? (buildOldMap old_grades))) := by
  rw [compare_grades, foldl_diffStep_eq]
  simp

/- ### Row-scan characterisation -/

/-- The guarded row body equals the spec-side conditional emission. -/
theorem rowEmit_eq_emit (anc : List Node) (n : Node) :
    (if isTr n then rowEmit anc n else []) = (emitIfQualifies (anc, n)).toList := by
  simp only [emitIfQualifies, rowQualifies, rowEmit, markerAncestor]
  cases hTr : isTr n
  · simp
  · simp only [Bool.true_and]
    cases hLen : (directTds n).length == 6
    · simp
    · simp only [if_pos rfl, Bool.true_and]
      cases hPt : findParentTable anc with
      | none => simp
      | some pt =>
        cases hMk : hasMarkerClass pt <;> simp [hMk]

mutual
/-- The scan emits exactly the qualifying rows of the occurrence list. -/
theorem scanNode_eq_filterMap (anc : List Node) (n : Node) :
    scanNode anc n = (occsNode anc n).filterMap emitIfQualifies := by
  cases n with
  | text s =>
    simp [scanNode, occsNode, emitIfQualifies, rowQualifies, isTr]
  | elem t cls ch =>
    rw [scanNode, occsNode, List.filterMap_cons]
    have he := rowEmit_eq_emit anc (.elem t cls ch)
    have hl := scanList_eq_filterMap (Node.elem t cls ch :: anc) ch
    cases hq : emitIfQualifies (anc, Node.elem t cls ch) with
    | none => rw [hq] at he; simpa [he] using hl
    | some g => rw [hq] at he; simp [he, hl]
/-- Sibling-list version of `scanNode_eq_filterMap`. -/
theorem scanList_eq_filterMap (anc : List Node) (l : List Node) :
    scanList anc l = (occsList anc l).filterMap emitIfQualifies := by
  cases l with
  | nil => simp [scanList, occsList]
  | cons n ns =>
    rw [scanList, occsList, List.filterMap_append,
        scanNode_eq_filterMap anc n, scanList_eq_filterMap anc ns]
end

/- ### Trimming lemmas for the subject normalisation -/

theorem replChar_ne_nbsp (c : Char) : replChar c ≠ '\u00A0' := by
  unfold replChar
  split
  · decide
  · assumption

theorem mem_pyStripList {c : Char} {l : List Char} (h : c ∈ pyStripList l) : c ∈ l := by
  unfold pyStripList at h
  rw [List.mem_reverse] at h
  have h1 := (List.dropWhile_sublist pyIsSpace).subset h
  rw [List.mem_reverse] at h1
  exact (List.dropWhile_sublist pyIsSpace).subset h1

theorem head?_dropWhile_false {p : Char → Bool} {l : List Char} {c : Char}
    (h : (l.dropWhile p).head? = some c) : p c = false := by
  induction l with
  | nil => simp [List.dropWhile] at h
  | cons a t ih =>
    rw [List.dropWhile_cons] at h
    by_cases hp : p a
    · rw [if_pos hp] at h
      exact ih h
    · rw [if_neg hp] at h
      simp only [List.head?_cons, Option.some.injEq] at h
      rw [← h]
      exact Bool.eq_false_iff.mpr hp

theorem head?_pyStripList {l : List Char} {c : Char}
    (h : (pyStripList l).head? = some c) : pyIsSpace c = false := by
  unfold pyStripList at h
  have hsuf : (l.dropWhile pyIsSpace).reverse.dropWhile pyIsSpace <:+
      (l.dropWhile pyIsSpace).reverse := List.dropWhile_suffix pyIsSpace
  have hpre := List.reverse_prefix.mpr hsuf
  rw [List.reverse_reverse] at hpre
  obtain ⟨t, ht⟩ := hpre
  have hh : (l.dropWhile pyIsSpace).head? = some c := by
    rw [← ht, List.head?_append, h]
    rfl
  exact head?_dropWhile_false hh

theorem revHead?_pyStripList {l : List Char} {c : Char}
    (h : (pyStripList l).reverse.head? = some c) : pyIsSpace c = false := by
  unfold pyStripList at h
  rw [List.reverse_reverse] at h
  exact head?_dropWhile_false h

/-- The three normalisation facts about any subject produced by
`subjectClean`: no non-breaking space remains, and no leading or trailing
Python whitespace remains. -/
theorem subjectClean_props (s : String) :
    '\u00A0' ∉ (subjectClean s).data ∧
    (∀ c, (subjectClean s).data.head? = some c → pyIsSpace c = false) ∧
    (∀ c, (subjectClean s).data.reverse.head? = some c → pyIsSpace c = false) := by
  refine ⟨?_, ?_, ?_⟩
  · intro hmem
    have h0 : '\u00A0' ∈ pyStripList (replNbsp (replNbsp s)).data := hmem
    have h1 := mem_pyStripList h0
    have h2 : '\u00A0' ∈ (replNbsp s).data.map replChar := h1
    obtain ⟨d, _, hd⟩ := List.mem_map.mp h2
    exact replChar_ne_nbsp d hd
  · intro c h
    have h0 : (pyStripList (replNbsp (replNbsp s)).data).head? = some c := h
    exact head?_pyStripList h0
  · intro c h
    have h0 : (pyStripList (replNbsp (replNbsp s)).data).reverse.head? = some c := h
    exact revHead?_pyStripList h0

/- ### Claim theorems for the diff engine -/

/-- C5: `compare_grades` classifies each current record as new exactly when its
identity key is absent from the previous-grade mapping; as changed exactly when
the key is present and the stored grade differs from the current grade under
exact string comparison, emitting the old grade, new grade, subject, year,
semester and the current record's date; equal stored grades emit nothing, and
both output lists preserve the order of `new_grades`. -/
theorem compare_grades_classification (old_grades new_grades : List Grade) :
    compare_grades old_grades new_grades =
      (new_grades.filter (specIsNew (buildOldMap old_grades)),
       new_grades.filterMap (specChange? (buildOldMap old_grades))) :=
  compare_grades_eq_filter old_grades new_grades

/-- C1 counterexample: with two previous records sharing one identity key
(grades "7" then "8"), the grade compared against a matching current record is
"8" — the second (last) occurrence — not the first occurrence's "7", so the
diff reports a change where the claim predicts none. -/
theorem duplicate_prev_key_counterexample :
    compare_grades [gAlg7, gAlg8] [gAlg7] =
      ([], [{ old_grade := "8", new_grade := "7", subject := "Algebra", year := "1",
              semester := "1", date := "2024-01-05" }]) ∧
    ("8" : String) ≠ "7" := by
  constructor
  · decide
  · decide

/-- C1 (amended): when the previous snapshot contains records with the same
identity key, the previous-grade lookup built by `compare_grades` retains the
grade of the last such record in sequence order, so the grade compared against
each matching current record is the last occurrence's grade. -/
theorem duplicate_prev_key_last_wins (old_grades : List Grade) (k : GKey) :
    dictGet? (buildOldMap old_grades) k =
      (old_grades.reverse.find? (fun g => gradeKey g == k)).map Grade.grade :=
  buildOldMap_get old_grades k

/-- C2 counterexample: for a sequence with a duplicated identity key and
differing grades, diffing the sequence against itself is not empty — the
earlier occurrence is compared against the later occurrence's grade and is
reported as changed. -/
theorem self_diff_counterexample :
    compare_grades [gAlg7, gAlg8] [gAlg7, gAlg8] ≠ ([], []) := by decide

/-- C2 (amended): for every record sequence `p` in which any two records
sharing an identity key carry the same grade (in particular whenever keys are
unique, the uniqueness `compare_grades` documents itself as assuming),
`compare_grades p p` returns an empty list of new records and an empty list of
changed records. -/
theorem self_diff_empty (p : List Grade)
    (h : ∀ g ∈ p, ∀ g2 ∈ p, gradeKey g = gradeKey g2 → g.grade = g2.grade) :
    compare_grades p p = ([], []) := by
  rw [compare_grades_eq_filter]
  have key : ∀ g ∈ p, dictGet? (buildOldMap p) (gradeKey g) = some g.grade := by
    intro g hg
    rw [buildOldMap_get]
    have hsome : (p.reverse.find? (fun x => gradeKey x == gradeKey g)).isSome := by
      rw [List.find?_isSome]
      exact ⟨g, List.mem_reverse.mpr hg, by simp⟩
    obtain ⟨g2, hfind⟩ := Option.isSome_iff_exists.mp hsome
    have hkey : gradeKey g2 = gradeKey g := by
      have := List.find?_some hfind
      simpa using this
    have hmem : g2 ∈ p := List.mem_reverse.mp (List.mem_of_find?_eq_some hfind)
    have hgr : g2.grade = g.grade := h g2 hmem g hg hkey
    rw [hfind]
    simp [hgr]
  have h1 : p.filter (specIsNew (buildOldMap p)) = [] := by
    rw [List.filter_eq_nil_iff]
    intro g hg
    simp [specIsNew, key g hg]
  have h2 : p.filterMap (specChange? (buildOldMap p)) = [] := by
    rw [List.filterMap_eq_nil_iff]
    intro g hg
    simp [specChange?, key g hg]
  rw [h1, h2]

/-- C2 witness: a duplicate-free two-record sequence diffed against itself. -/
theorem self_diff_empty_witness :
    compare_grades [gAlg7, gDb8] [gAlg7, gDb8] = ([], []) :=
  self_diff_empty [gAlg7, gDb8] (by decide)

/-- C7: diffing an empty previous snapshot against any non-empty current
sequence classifies every current record as new, in order, with no changed
entries. -/
theorem first_run_all_new (current : List Grade) (h : current ≠ []) :
    compare_grades [] current = (current, []) := by
  rw [compare_grades_eq_filter]
  have hget : ∀ g : Grade, dictGet? (buildOldMap []) (gradeKey g) = none := by
    intro g; rfl
  have h1 : current.filter (specIsNew (buildOldMap [])) = current := by
    rw [List.filter_eq_self]
    intro g hg
    simp [specIsNew, hget g]
  have h2 : current.filterMap (specChange? (buildOldMap [])) = [] := by
    rw [List.filterMap_eq_nil_iff]
    intro g hg
    simp [specChange?, hget g]
  rw [h1, h2]

/-- C7 witness: a singleton current sequence against an empty snapshot. -/
theorem first_run_all_new_witness :
    compare_grades [] [gAlg7] = ([gAlg7], []) :=
  first_run_all_new [gAlg7] (by decide)

/-- C10: current records are classified independently — `compare_grades`
distributes over appending current sequences, so a duplicated identity key in
`current` contributes one output entry per occurrence (two new entries for a
twice-repeated unseen record, two changed entries for two differing
occurrences of a known key); no deduplication is applied. -/
theorem current_records_independent :
    (∀ (old_grades c1 c2 : List Grade),
        compare_grades old_grades (c1 ++ c2) =
          ((compare_grades old_grades c1).1 ++ (compare_grades old_grades c2).1,
           (compare_grades old_grades c1).2 ++ (compare_grades old_grades c2).2)) ∧
    compare_grades [] [gAlg7, gAlg7] = ([gAlg7, gAlg7], []) ∧
    compare_grades [gAlg8] [gAlg7, gAlg9] =
      ([], [{ old_grade := "8", new_grade := "7", subject := "Algebra", year := "1",
              semester := "1", date := "2024-01-05" },
            { old_grade := "8", new_grade := "9", subject := "Algebra", year := "1",
              semester := "1", date := "2024-02-01" }]) := by
  refine ⟨?_, by decide, by decide⟩
  intro old_grades c1 c2
  rw [compare_grades_eq_filter, compare_grades_eq_filter, compare_grades_eq_filter]
  simp [List.filter_append, List.filterMap_append]

/- ### Claim theorems for the page extractor -/

/-- C4: for every document, the row scan of `get_grades` emits a record for a
table row exactly when the row has exactly six direct td cells and its nearest
enclosing table ancestor carries the marker class `table`; in particular a
marker-class row with 5 or 7 cells is excluded, and a six-cell row without a
marker-class ancestor is excluded. -/
theorem extraction_row_filter :
    (∀ doc : Node, extractRecords doc = (occsNode [] doc).filterMap emitIfQualifies) ∧
    extractRecords (markerTable [row5]) = [] ∧
    extractRecords (markerTable [row7]) = [] ∧
    extractRecords (plainTable [row6]) = [] ∧
    extractRecords (markerTable [row6]) = [rec6] := by
  refine ⟨fun doc => scanNode_eq_filterMap [] doc, by decide, by decide, by decide, by decide⟩

/- ### Claim theorem for subject normalisation (C6) -/

/-- C6: every record produced by the extraction scan has a subject with every
non-breaking space replaced and surrounding whitespace trimmed (no U+00A0
remains, no leading or trailing Python whitespace remains); the normalisation
depends only on the non-breaking-space-collapsed text, so two raw subjects
differing only by non-breaking versus regular spaces normalise identically;
and the identity key of `compare_grades` is built from this normalised
subject field. -/
theorem subject_nbsp_normalized :
    (∀ (doc : Node) (r : Grade), r ∈ extractRecords doc →
        ('\u00A0' ∉ r.subject.data ∧
         (∀ c, r.subject.data.head? = some c → pyIsSpace c = false) ∧
         (∀ c, r.subject.data.reverse.head? = some c → pyIsSpace c = false))) ∧
    (∀ s t : String, replNbsp s = replNbsp t → subjectClean s = subjectClean t) ∧
    (∀ g1 g2 : Grade, g1.subject = g2.subject → g1.year = g2.year →
        g1.semester = g2.semester → gradeKey g1 = gradeKey g2) := by
  refine ⟨?_, ?_, ?_⟩
  · intro doc r hr
    rw [extractRecords, scanNode_eq_filterMap] at hr
    obtain ⟨⟨anc, n⟩, _, hemit⟩ := List.mem_filterMap.mp hr
    unfold emitIfQualifies at hemit
    cases hq : rowQualifies (anc, n).1 (anc, n).2
    · rw [hq] at hemit
      simp at hemit
    · rw [hq] at hemit
      simp only [if_pos] at hemit
      have hrec : mkRecord (directTds (anc, n).2) = r := by
        simpa using hemit
      have hsub : r.subject = subjectClean (cellText (directTds (anc, n).2) 2) := by
        rw [← hrec]
        rfl
      rw [hsub]
      exact subjectClean_props _
  · intro s t h
    unfold subjectClean
    rw [h]
  · intro g1 g2 h1 h2 h3
    unfold gradeKey
    rw [h1, h2, h3]

/-- C6 witness: a concrete extracted record retains no non-breaking space, and
a concrete pair of subjects differing only by a non-breaking space versus a
regular space normalise identically. -/
theorem subject_nbsp_normalized_witness :
    '\u00A0' ∉ recNb.subject.data ∧
    subjectClean "Algebra\u00A0Liniara" = subjectClean "Algebra Liniara" :=
  ⟨(subject_nbsp_normalized.1 docNb recNb (by decide)).1,
   subject_nbsp_normalized.2.1 "Algebra\u00A0Liniara" "Algebra Liniara" (by decide)⟩

/- ### Claim theorems for the auth handshake and the POST payloads -/

/-- Every run of `login_websinu` returns either the failure triple
`(None, None, None)` or a fully populated success triple with a non-empty sid. -/
theorem login_websinu_shape (username password : String) (env : LoginEnv) :
    (login_websinu username password env).2 = failTriple ∨
    ∃ s h, (login_websinu username password env).2 = (some (), some s, some h) ∧ s ≠ "" := by
  unfold login_websinu
  repeat' split
  all_goals try exact Or.inl rfl
  all_goals exact Or.inr ⟨_, _, rfl, by assumption⟩

/-- C9: `login_websinu` is all-or-nothing — on every failure path it returns
exactly `(None, None, None)`, and on every success path the session, sid and
landing HTML are all populated with the sid a non-empty string; a partially
populated triple is never returned. -/
theorem login_all_or_nothing (username password : String) (env : LoginEnv) :
    (login_websinu username password env).2 = (none, none, none) ∨
    ∃ s h, (login_websinu username password env).2 = (some (), some s, some h) ∧ s ≠ "" :=
  login_websinu_shape username password env

/-- C3 counterexample: the landing-page title mismatch after the two-hop
handshake and the credential rejection yield identical results — the function
returns the same untyped `(None, None, None)` in both contexts, so no typed,
distinguishable `ProtocolError`/`AuthError` values exist in the returned
result. -/
theorem login_errors_indistinguishable :
    (login_websinu "user" "pass" twoHopMismatchEnv).2 =
      (login_websinu "user" "pass" credentialRejectEnv).2 := by decide

/-- C3 (amended): `login_websinu` reports failure untyped — a landing-page
title mismatch after the two-hop handshake and a credential rejection both
return the same bare triple `(None, None, None)` carrying no error type,
status or body excerpt; and for every environment the function returns
normally (every exception is swallowed), yielding either that failure triple
or a complete success triple. -/
theorem login_failure_untyped :
    (login_websinu "user" "pass" twoHopMismatchEnv).2 = (none, none, none) ∧
    (login_websinu "user" "pass" credentialRejectEnv).2 = (none, none, none) ∧
    (∀ (username password : String) (env : LoginEnv),
        (login_websinu username password env).2 = (none, none, none) ∨
        ∃ s h, (login_websinu username password env).2 = (some (), some s, some h)) := by
  refine ⟨by decide, by decide, ?_⟩
  intro username password env
  rcases login_websinu_shape username password env with hf | ⟨s, h, hs, _⟩
  · exact Or.inl hf
  · exact Or.inr ⟨s, h, hs⟩

/-- C8: the login POST payload consists exactly of `hidSelfSubmit='default.asp'`,
`username`, `password` and `submit=' Intra '`; and any records POST issued by
`get_grades` carries exactly `hidSelfSubmit='roluri.asp'`, `sid`,
`hidOperation='N'`, and `hidNume_Facultate`/`hidNume_Specializare` populated
from the two string arguments extracted from the anchor's JavaScript call —
with no other fields in either payload. -/
theorem post_payloads_exact :
    (∀ (username password : String) (env : LoginEnv),
        ((login_websinu username password env).1).head? =
          some { url := loginUrl,
                 payload := [("hidSelfSubmit", "default.asp"), ("username", username),
                             ("password", password), ("submit", " Intra ")] }) ∧
    (∀ (sid : String) (env : GradesEnv) (r : Request), r ∈ (get_grades sid env).1 →
        ∃ href a b, env.viewNotesLink = some href ∧ noteArgs href = some (a, b) ∧
          r = { url := roluriUrl,
                payload := [("hidSelfSubmit", "roluri.asp"), ("sid", sid),
                            ("hidOperation", "N"), ("hidNume_Facultate", pyStrip a),
                            ("hidNume_Specializare", pyStrip b)] }) := by
  constructor
  · intro username password env
    unfold login_websinu loginPayload
    repeat' split
    all_goals rfl
  · intro sid env r hr
    unfold get_grades at hr
    split at hr
    · simp at hr
    · split at hr
      · simp at hr
      · rename_i href hhref
        split at hr
        · simp at hr
        · rename_i ab hab
          refine ⟨href, ab.1, ab.2, hhref, hab, ?_⟩
          split at hr
          · simpa using hr
          · split at hr <;> simpa using hr

/-- C8 witness: on a concrete landing page the records POST issued carries
exactly the five fields, the faculty and specialisation coming from the
anchor's JavaScript call. -/
theorem post_payloads_exact_witness :
    ∃ href a b, sampleGradesEnv.viewNotesLink = some href ∧ noteArgs href = some (a, b) ∧
      sampleGradesReq =
        { url := roluriUrl,
          payload := [("hidSelfSubmit", "roluri.asp"), ("sid", "SID9"),
                      ("hidOperation", "N"), ("hidNume_Facultate", pyStrip a),
                      ("hidNume_Specializare", pyStrip b)] } :=
  post_payloads_exact.2 "SID9" sampleGradesEnv sampleGradesReq (by decide)
